import Mathlib

/-!
Verification of the soybean-import report-assembly pipeline
(`backend/services/soybean.py`, class `SoybeanService`).

Dates are modelled as day numbers (`Int`, days since 1970-01-01), with the
standard civil-calendar conversions so that `datetime(y, m, d)`,
`timedelta(days = n)` and `strftime("%Y-%m-%d")` from the source can be
expressed.  Floating-point quantities are modelled as rationals.  The
database table behind `SoybeanImportDB` is modelled as the list of its rows;
a SQLAlchemy query chain `filter ... order_by ... first/all` is translated
to `List.filter`, `List.insertionSort` and `List.head?`.
-/

namespace Soybean

/-! ### Calendar arithmetic (model of `datetime` / `timedelta`) -/

/-- `daysFromCivil y m d` is the number of days from 1970-01-01 to the
civil (proleptic Gregorian) date `y-m-d`; model of `datetime(y, m, d)`. -/
def daysFromCivil (y m d : Int) : Int :=
  let y' := if m ≤ 2 then y - 1 else y
  let era := Int.fdiv y' 400
  let yoe := y' - era * 400
  let mp := if m > 2 then m - 3 else m + 9
  let doy := (153 * mp + 2) / 5 + d - 1
  let doe := yoe * 365 + yoe / 4 - yoe / 100 + doy
  era * 146097 + doe - 719468

/-- Inverse of `daysFromCivil`: the civil date `(y, m, d)` of day number
`z`; used to model `.year` and `strftime` on a stored date. -/
def civilFromDays (z : Int) : Int × Int × Int :=
  let z' := z + 719468
  let era := Int.fdiv z' 146097
  let doe := z' - era * 146097
  let yoe := (doe - doe / 1460 + doe / 36524 - doe / 146096) / 365
  let y := yoe + era * 400
  let doy := doe - (365 * yoe + yoe / 4 - yoe / 100)
  let mp := (5 * doy + 2) / 153
  let d := doy - (153 * mp + 2) / 5 + 1
  let m := if mp < 10 then mp + 3 else mp - 9
  (if m ≤ 2 then y + 1 else y, m, d)

/-- `date.year` of a stored day number. -/
def yearOf (z : Int) : Int := (civilFromDays z).1

/-- Two-digit zero padding, as `strftime` does for `%m` and `%d`. -/
def pad2 (n : Int) : String := if n < 10 then "0" ++ toString n else toString n

/-- Model of `date.strftime("%Y-%m-%d")`. -/
def fmtDate (z : Int) : String :=
  let c := civilFromDays z
  toString c.1 ++ "-" ++ pad2 c.2.1 ++ "-" ++ pad2 c.2.2

/-! ### Data model

`models/soybean.py` is not part of the sources; the record shapes below are
modelled from the spec (§3): `PortDetail` is {port name, current volume,
historical volume}, `CustomsDetail` is {customs region, metric, value},
`PolicyEvent` is {date, event, impact, category}, `ComparisonData` is
{period label, numeric value, series-type tag}. -/

/-- Modelled from the spec: one entry of `port_details`
({port name, current volume, historical volume}). -/
structure PortDetail where
  port : String
  current : ℚ
  historical : ℚ
  deriving Repr, DecidableEq

/-- Modelled from the spec: one entry of `customs_details`
({customs region, metric, value}). -/
structure CustomsDetail where
  customs : String
  metric : String
  value : ℚ
  deriving Repr, DecidableEq

/-- Modelled from the spec: a static policy annotation
{date, event description, impact description, category}. -/
structure PolicyEvent where
  date : String
  event : String
  impact : String
  type : String
  deriving Repr, DecidableEq

/-- Modelled from the spec: one plotted observation
{period label, numeric value, series-type tag}. -/
structure ComparisonData where
  month : String
  value : ℚ
  type : String
  deriving Repr, DecidableEq

/-- Modelled from the spec: one entry of the port-distribution breakdown. -/
structure PortDistributionData where
  port : String
  value : ℚ
  type : String
  deriving Repr, DecidableEq

/-- One row of the `SoybeanImportDB` table: a persisted snapshot keyed by
its observation date (a day number). -/
structure SoybeanImportDB where
  date : Int
  current_shipment : ℚ
  forecast_shipment : ℚ
  forecast_next_shipment : ℚ
  current_arrival : ℚ
  next_arrival : ℚ
  current_month_arrival : ℚ
  next_month_arrival : ℚ
  port_details : List PortDetail
  customs_details : List CustomsDetail
  deriving Repr, DecidableEq

/-- The assembled report (`SoybeanImport` response model).  The response
model class is not in the sources; following the spec, the delta fields and
the timestamps are optional and absent by default, and the sequence fields
default to empty — the degenerate (empty-store) construction at
`soybean.py:90` passes none of them. -/
structure SoybeanImport where
  date : String
  current_shipment : ℚ
  forecast_shipment : ℚ
  forecast_next_shipment : ℚ
  current_arrival : ℚ
  next_arrival : ℚ
  current_month_arrival : ℚ
  next_month_arrival : ℚ
  shipment_forecast_diff : Option ℚ := none
  arrival_forecast_diff : Option ℚ := none
  current_shipment_yoy : Option ℚ := none
  forecast_shipment_yoy : Option ℚ := none
  current_arrival_yoy : Option ℚ := none
  next_arrival_yoy : Option ℚ := none
  current_shipment_mom : Option ℚ := none
  forecast_shipment_mom : Option ℚ := none
  current_arrival_mom : Option ℚ := none
  monthly_comparison : List ComparisonData := []
  port_distribution : List PortDistributionData := []
  port_details : List PortDetail := []
  customs_details : List CustomsDetail := []
  policy_events : List PolicyEvent := []
  created_at : Option Int := none
  updated_at : Option Int := none
  deriving Repr, DecidableEq

/-! ### DerivedMetricsCalculator (`_calculate_yoy`, `_calculate_mom`) -/

/-- `SoybeanService._calculate_yoy` (soybean.py:27-31). -/
def calculate_yoy (current previous : ℚ) : ℚ :=
  if previous = 0 then 0.0
  else (current - previous) / previous * 100

/-- `SoybeanService._calculate_mom` (soybean.py:33-37). -/
def calculate_mom (current previous : ℚ) : ℚ :=
  if previous = 0 then 0.0
  else (current - previous) / previous * 100

/-! ### TimeSeriesStore access (the three SQLAlchemy query chains)

The table is a list of rows in table (insertion) order.  `filter` keeps
table order; `first()` takes the head of the result set; an explicit
`order_by` sorts it first. -/

/-- Ascending date order on table rows (`order_by(date.asc())`). -/
def dateLe (a b : SoybeanImportDB) : Prop := a.date ≤ b.date

/-- Descending date order on table rows (`order_by(date.desc())`). -/
def dateGe (a b : SoybeanImportDB) : Prop := b.date ≤ a.date

instance : DecidableRel dateLe := fun a b => Int.decLe a.date b.date

instance : DecidableRel dateGe := fun a b => Int.decLe b.date a.date

instance : IsTotal SoybeanImportDB dateLe :=
  ⟨fun a b => Int.le_total a.date b.date⟩

instance : IsTrans SoybeanImportDB dateLe :=
  ⟨fun _ _ _ h1 h2 => le_trans h1 h2⟩

instance : IsTotal SoybeanImportDB dateGe :=
  ⟨fun a b => (Int.le_total b.date a.date).symm.imp id id |>.symm⟩

instance : IsTrans SoybeanImportDB dateGe :=
  ⟨fun _ _ _ h1 h2 => le_trans h2 h1⟩

/-- `db.query(SoybeanImportDB).order_by(date.desc()).first()` (soybean.py:87). -/
def latestQuery (rows : List SoybeanImportDB) : Option SoybeanImportDB :=
  (List.insertionSort dateGe rows).head?

/-- The two comparable lookups
`db.query(...).filter(date >= target, date < target + timedelta(days=7)).first()`
(soybean.py:106-109 and 113-116): head of the rows whose date lies in
`[target, target + 7)`, in table order — the source has no `order_by` here. -/
def nearQuery (rows : List SoybeanImportDB) (target : Int) : Option SoybeanImportDB :=
  (rows.filter (fun r => target ≤ r.date && r.date < target + 7)).head?

/-- `db.query(...).filter(date >= lo, date <= hi).order_by(date.asc()).all()`
(soybean.py:124-127). -/
def rangeQuery (rows : List SoybeanImportDB) (lo hi : Int) : List SoybeanImportDB :=
  List.insertionSort dateLe (rows.filter (fun r => lo ≤ r.date && r.date ≤ hi))

/-! ### Static policy-event lists -/

/-- `SoybeanService._get_policy_events` (soybean.py:39-78): the fixed
six-event list attached on the degenerate (empty-store) path. -/
def get_policy_events : List PolicyEvent :=
  [ { date := "2024-01",
      event := "中美第一阶段经贸协议执行情况评估",
      impact := "关注中美农产品贸易承诺履行情况，影响大豆进口配额和关税政策",
      type := "贸易政策" },
    { date := "2024-02",
      event := "巴西大豆收获季节开始",
      impact := "巴西大豆产量预期下调，天气因素影响收获进度，出口竞争力减弱",
      type := "供应因素" },
    { date := "2024-02",
      event := "中央一号文件发布",
      impact := "强调保障粮食安全，提出扩大大豆种植面积，加强国产大豆生产",
      type := "产业政策" },
    { date := "2024-03",
      event := "国内油厂压榨利润转负",
      impact := "豆粕需求疲软，油厂开机率下降，影响进口采购积极性",
      type := "市场因素" },
    { date := "2024-03",
      event := "美豆种植意向报告发布",
      impact := "美国大豆种植面积预期增加，影响国际大豆价格走势",
      type := "市场因素" },
    { date := "2024-04",
      event := "阿根廷取消农产品出口税",
      impact := "提升阿根廷大豆出口竞争力，改变全球供应格局",
      type := "贸易政策" } ]

/-- The inline four-event list built on the normal path (soybean.py:167-192). -/
def inline_policy_events : List PolicyEvent :=
  [ { date := "2024-01-15",
      event := "中美第一阶段经贸协议执行情况评估",
      impact := "可能影响大豆进口配额和关税政策",
      type := "贸易政策" },
    { date := "2024-02-01",
      event := "巴西大豆收获季节开始",
      impact := "供应量增加，价格可能下调",
      type := "供应因素" },
    { date := "2024-03-10",
      event := "国内油厂补贴政策调整",
      impact := "影响压榨利润，可能影响采购意愿",
      type := "产业政策" },
    { date := "2024-04-01",
      event := "国际大豆期货价格波动",
      impact := "贸易商观望情绪加重",
      type := "市场因素" } ]

/-! ### Report assembly (`get_soybean_import_data`, soybean.py:80-276) -/

/-- The four ComparisonData entries emitted for one snapshot of the chart
range (soybean.py:129-161), in source order: actual shipment, forecast
shipment, actual arrival, forecast arrival, each keyed by the snapshot's
formatted date. -/
def comparisonPoints (data : SoybeanImportDB) : List ComparisonData :=
  [ { month := fmtDate data.date, value := data.current_shipment, type := "实际装船量" },
    { month := fmtDate data.date, value := data.forecast_shipment, type := "预报装船量" },
    { month := fmtDate data.date, value := data.current_arrival, type := "实际到港量" },
    { month := fmtDate data.date, value := data.next_arrival, type := "预报到港量" } ]

/-- The degenerate all-zero report returned when the table is empty
(soybean.py:90-102); the unlisted fields take the model defaults. -/
def emptyReport (now : Int) : SoybeanImport :=
  { date := fmtDate now,
    current_shipment := 0.0,
    forecast_shipment := 0.0,
    forecast_next_shipment := 0.0,
    current_arrival := 0.0,
    next_arrival := 0.0,
    current_month_arrival := 0.0,
    next_month_arrival := 0.0,
    port_details := [],
    customs_details := [],
    policy_events := get_policy_events }

/-- The `monthly_comparison` list built inside the inner `try` block
(soybean.py:119-164): `chartFails = true` stands for an arbitrary exception
inside that block, which the `except` clause replaces by the empty list. -/
def buildMonthly (rows : List SoybeanImportDB) (refDate : Int)
    (chartFails : Bool) : List ComparisonData :=
  if chartFails then []
  else
    let current_year := yearOf refDate
    let last_year := current_year - 1
    let year_data := rangeQuery rows
      (daysFromCivil last_year 1 1) (daysFromCivil current_year 12 31)
    year_data.flatMap comparisonPoints

/-- The base response object constructed at soybean.py:195-229, before the
delta fields are filled in. -/
def baseReport (rows : List SoybeanImportDB) (current_data : SoybeanImportDB)
    (chartFails : Bool) (now : Int) : SoybeanImport :=
  { date := fmtDate current_data.date,
    current_shipment := current_data.current_shipment,
    forecast_shipment := current_data.forecast_shipment,
    forecast_next_shipment := current_data.forecast_next_shipment,
    current_arrival := current_data.current_arrival,
    next_arrival := current_data.next_arrival,
    current_month_arrival := current_data.current_month_arrival,
    next_month_arrival := current_data.next_month_arrival,
    shipment_forecast_diff :=
      some (current_data.current_shipment - current_data.forecast_shipment),
    arrival_forecast_diff :=
      some (current_data.current_month_arrival - current_data.next_arrival),
    monthly_comparison := buildMonthly rows current_data.date chartFails,
    port_distribution := current_data.port_details.map
      (fun detail => { port := detail.port, value := detail.current, type := "current" }),
    port_details := current_data.port_details,
    customs_details := current_data.customs_details,
    policy_events := inline_policy_events,
    created_at := some now,
    updated_at := some now }

/-- The year-over-year block at soybean.py:231-248: fills the four YoY
fields when the year-ago comparable was found, otherwise leaves the report
unchanged. -/
def applyYoy (current_data : SoybeanImportDB) (prev : Option SoybeanImportDB)
    (r : SoybeanImport) : SoybeanImport :=
  match prev with
  | some p =>
    { r with
      current_shipment_yoy :=
        some (calculate_yoy current_data.current_shipment p.current_shipment),
      forecast_shipment_yoy :=
        some (calculate_yoy current_data.forecast_shipment p.forecast_shipment),
      current_arrival_yoy :=
        some (calculate_yoy current_data.current_arrival p.current_arrival),
      next_arrival_yoy :=
        some (calculate_yoy current_data.next_arrival p.next_arrival) }
  | none => r

/-- The month-over-month block at soybean.py:250-263: fills the three MoM
fields when the month-ago comparable was found, otherwise leaves the report
unchanged.  No next-month-arrival MoM exists in the source. -/
def applyMom (current_data : SoybeanImportDB) (prev : Option SoybeanImportDB)
    (r : SoybeanImport) : SoybeanImport :=
  match prev with
  | some p =>
    { r with
      current_shipment_mom :=
        some (calculate_mom current_data.current_shipment p.current_shipment),
      forecast_shipment_mom :=
        some (calculate_mom current_data.forecast_shipment p.forecast_shipment),
      current_arrival_mom :=
        some (calculate_mom current_data.current_arrival p.current_arrival) }
  | none => r

/-- `SoybeanService.get_soybean_import_data` (soybean.py:80-276).

Failure modelling: `sessionOk = false` stands for the store connection
failing (`self.SessionLocal()` or a query raising); the outer
`except ... raise` (soybean.py:268-270) re-raises it to the caller.
`chartFails = true` stands for an arbitrary exception inside the inner
`try` around the chart construction (soybean.py:120-164), which is caught
locally and replaced by `monthly_comparison = []`.  `now` is the day of
`datetime.now()`. -/
def get_soybean_import_data (sessionOk : Bool) (rows : List SoybeanImportDB)
    (chartFails : Bool) (now : Int) : Except String SoybeanImport :=
  if sessionOk = false then .error "StoreUnavailable"
  else
    match latestQuery rows with
    | none => .ok (emptyReport now)
    | some current_data =>
      let prev_year_data := nearQuery rows (current_data.date - 365)
      let prev_month_data := nearQuery rows (current_data.date - 30)
      .ok (applyMom current_data prev_month_data
            (applyYoy current_data prev_year_data
              (baseReport rows current_data chartFails now)))

/-- Report content equality ignoring the `created_at` / `updated_at`
timestamps: every other field agrees. -/
def contentEqExceptTimestamps (a b : SoybeanImport) : Prop :=
  a.date = b.date ∧
  a.current_shipment = b.current_shipment ∧
  a.forecast_shipment = b.forecast_shipment ∧
  a.forecast_next_shipment = b.forecast_next_shipment ∧
  a.current_arrival = b.current_arrival ∧
  a.next_arrival = b.next_arrival ∧
  a.current_month_arrival = b.current_month_arrival ∧
  a.next_month_arrival = b.next_month_arrival ∧
  a.shipment_forecast_diff = b.shipment_forecast_diff ∧
  a.arrival_forecast_diff = b.arrival_forecast_diff ∧
  a.current_shipment_yoy = b.current_shipment_yoy ∧
  a.forecast_shipment_yoy = b.forecast_shipment_yoy ∧
  a.current_arrival_yoy = b.current_arrival_yoy ∧
  a.next_arrival_yoy = b.next_arrival_yoy ∧
  a.current_shipment_mom = b.current_shipment_mom ∧
  a.forecast_shipment_mom = b.forecast_shipment_mom ∧
  a.current_arrival_mom = b.current_arrival_mom ∧
  a.monthly_comparison = b.monthly_comparison ∧
  a.port_distribution = b.port_distribution ∧
  a.port_details = b.port_details ∧
  a.customs_details = b.customs_details ∧
  a.policy_events = b.policy_events

instance (a b : SoybeanImport) : Decidable (contentEqExceptTimestamps a b) := by
  unfold contentEqExceptTimestamps
  infer_instance

/-! ### Concrete store fixtures for evaluating the pipeline -/

/-- A concrete snapshot dated 2023-01-22. -/
def wSnapC : SoybeanImportDB :=
  { date := daysFromCivil 2023 1 22, current_shipment := 100, forecast_shipment := 90,
    forecast_next_shipment := 95, current_arrival := 80, next_arrival := 85,
    current_month_arrival := 70, next_month_arrival := 75,
    port_details := [], customs_details := [] }

/-- A concrete snapshot dated 2023-12-23. -/
def wSnapD : SoybeanImportDB :=
  { wSnapC with date := daysFromCivil 2023 12 23, current_shipment := 110 }

/-- A concrete snapshot dated 2024-01-05. -/
def wSnapA : SoybeanImportDB :=
  { wSnapC with date := daysFromCivil 2024 1 5, current_shipment := 115 }

/-- A concrete snapshot dated 2024-01-20, with one port detail; the latest
row of `wStore`, hence its reference snapshot. -/
def wSnapB : SoybeanImportDB :=
  { wSnapC with
    date := daysFromCivil 2024 1 20,
    current_shipment := 120,
    port_details := [{ port := "青岛", current := 50, historical := 45 }] }

/-- A concrete four-row store, in ascending date order.  Relative to its
reference snapshot `wSnapB` (2024-01-20), `wSnapC` lies in the year-ago
lookup window `[2023-01-20, 2023-01-27)` and `wSnapD` in the month-ago
window `[2023-12-21, 2023-12-28)`. -/
def wStore : List SoybeanImportDB := [wSnapC, wSnapD, wSnapA, wSnapB]

/-- The report the pipeline assembles over `wStore` (invoked on day 0). -/
def wReport : SoybeanImport :=
  (get_soybean_import_data true wStore false 0).toOption.getD (emptyReport 0)

end Soybean

/-! ### Helper lemmas -/

namespace Soybean

theorem get_error_eq (rows : List SoybeanImportDB) (chartFails : Bool) (now : Int) :
    get_soybean_import_data false rows chartFails now = Except.error "StoreUnavailable" := rfl

theorem get_none_eq (rows : List SoybeanImportDB) (chartFails : Bool) (now : Int)
    (hl : latestQuery rows = none) :
    get_soybean_import_data true rows chartFails now = Except.ok (emptyReport now) := by
  unfold get_soybean_import_data
  rw [hl]
  rfl

theorem get_ok_eq (rows : List SoybeanImportDB) (chartFails : Bool) (now : Int)
    (current_data : SoybeanImportDB) (hl : latestQuery rows = some current_data) :
    get_soybean_import_data true rows chartFails now =
      Except.ok (applyMom current_data (nearQuery rows (current_data.date - 30))
        (applyYoy current_data (nearQuery rows (current_data.date - 365))
          (baseReport rows current_data chartFails now))) := by
  unfold get_soybean_import_data
  rw [hl]
  rfl

theorem length_flatMap_comparisonPoints (l : List SoybeanImportDB) :
    (l.flatMap comparisonPoints).length = 4 * l.length := by
  induction l with
  | nil => rfl
  | cons a t ih =>
    simp only [List.flatMap_cons, List.length_append, List.length_cons, ih, comparisonPoints,
      List.length_nil]
    omega

end Soybean

/-! ### Claim theorems -/

namespace Soybean

/-- C1: for every pair of rationals, `_calculate_yoy` and `_calculate_mom`
return exactly `0.0` when the previous value is `0`, and
`(current - previous) / previous * 100` when it is not; in particular the
percent change of any nonzero value against itself is `0`. -/
theorem percentChange_spec (current previous : ℚ) :
    (previous = 0 →
      calculate_yoy current previous = 0.0 ∧ calculate_mom current previous = 0.0) ∧
    (previous ≠ 0 →
      calculate_yoy current previous = (current - previous) / previous * 100 ∧
      calculate_mom current previous = (current - previous) / previous * 100 ∧
      calculate_yoy previous previous = 0 ∧ calculate_mom previous previous = 0) := by
  refine ⟨fun h => ?_, fun h => ?_⟩
  · simp [calculate_yoy, calculate_mom, h]
  · simp [calculate_yoy, calculate_mom, h]

/-- Witness for C1, at `(7, 0)` and `(7, 2)`. -/
theorem percentChange_spec_witness :
    (calculate_yoy 7 0 = 0.0 ∧ calculate_mom 7 0 = 0.0) ∧
    (calculate_yoy 7 2 = (7 - 2) / 2 * 100 ∧ calculate_mom 7 2 = (7 - 2) / 2 * 100 ∧
      calculate_yoy 2 2 = 0 ∧ calculate_mom 2 2 = 0) :=
  ⟨(percentChange_spec 7 0).1 rfl, (percentChange_spec 7 2).2 (by decide)⟩

/-- C10: the two code-level delta functions are extensionally equal, so a
single `percentChange` function implements both. -/
theorem calculate_yoy_eq_calculate_mom (current previous : ℚ) :
    calculate_yoy current previous = calculate_mom current previous := rfl

/-- C2: on an empty store, `get_soybean_import_data` succeeds and returns
the degenerate report: all numeric fields `0.0`, both forecast diffs and
every YoY/MoM delta absent, empty `port_details` / `customs_details`, and
the fixed non-empty policy-event list. -/
theorem buildReport_empty_store (chartFails : Bool) (now : Int) :
    ∃ r, get_soybean_import_data true [] chartFails now = Except.ok r ∧
      r.current_shipment = 0.0 ∧ r.forecast_shipment = 0.0 ∧
      r.forecast_next_shipment = 0.0 ∧ r.current_arrival = 0.0 ∧
      r.next_arrival = 0.0 ∧ r.current_month_arrival = 0.0 ∧
      r.next_month_arrival = 0.0 ∧ r.shipment_forecast_diff = none ∧
      r.arrival_forecast_diff = none ∧
      r.port_details = [] ∧ r.customs_details = [] ∧
      r.policy_events = get_policy_events ∧ r.policy_events ≠ [] ∧
      r.current_shipment_yoy = none ∧ r.forecast_shipment_yoy = none ∧
      r.current_arrival_yoy = none ∧ r.next_arrival_yoy = none ∧
      r.current_shipment_mom = none ∧ r.forecast_shipment_mom = none ∧
      r.current_arrival_mom = none := by
  refine ⟨emptyReport now, rfl, rfl, rfl, rfl, rfl, rfl, rfl, rfl, rfl, rfl, rfl, rfl, rfl,
    ?_, rfl, rfl, rfl, rfl, rfl, rfl, rfl⟩
  exact List.cons_ne_nil _ _

end Soybean

namespace Soybean

/-- C7: for every non-empty store, the assembled report's
`shipment_forecast_diff` is `current_shipment - forecast_shipment` and its
`arrival_forecast_diff` is `current_month_arrival - next_arrival`, taken
from the reference snapshot, unconditionally — whatever the comparable
lookups return. -/
theorem forecast_diff_unconditional (sessionOk chartFails : Bool)
    (rows : List SoybeanImportDB) (now : Int) (current_data : SoybeanImportDB)
    (r : SoybeanImport)
    (hl : latestQuery rows = some current_data)
    (hr : get_soybean_import_data sessionOk rows chartFails now = Except.ok r) :
    r.shipment_forecast_diff =
      some (current_data.current_shipment - current_data.forecast_shipment) ∧
    r.arrival_forecast_diff =
      some (current_data.current_month_arrival - current_data.next_arrival) := by
  cases sessionOk with
  | false => rw [get_error_eq] at hr; cases hr
  | true =>
    rw [get_ok_eq rows chartFails now current_data hl] at hr
    injection hr with hr
    subst hr
    cases nearQuery rows (current_data.date - 365) <;>
      cases nearQuery rows (current_data.date - 30) <;>
      exact ⟨rfl, rfl⟩

/-- Witness for C7: the concrete store `wStore` with reference snapshot
`wSnapB`. -/
theorem forecast_diff_unconditional_witness :
    wReport.shipment_forecast_diff =
      some (wSnapB.current_shipment - wSnapB.forecast_shipment) ∧
    wReport.arrival_forecast_diff =
      some (wSnapB.current_month_arrival - wSnapB.next_arrival) :=
  forecast_diff_unconditional true false wStore 0 wSnapB wReport (by decide) rfl

/-- C5: when the year-ago comparable is absent all four YoY fields stay
absent; when the month-ago comparable is absent the MoM fields stay absent;
when a comparable is present the four YoY fields, respectively exactly the
three MoM fields (`current_shipment_mom`, `forecast_shipment_mom`,
`current_arrival_mom`), are populated from the calculator — the report
model carries no next-month-arrival MoM field and the code computes none. -/
theorem delta_fields_population (chartFails : Bool) (rows : List SoybeanImportDB)
    (now : Int) (current_data : SoybeanImportDB) (r : SoybeanImport)
    (hl : latestQuery rows = some current_data)
    (hr : get_soybean_import_data true rows chartFails now = Except.ok r) :
    (nearQuery rows (current_data.date - 365) = none →
      r.current_shipment_yoy = none ∧ r.forecast_shipment_yoy = none ∧
      r.current_arrival_yoy = none ∧ r.next_arrival_yoy = none) ∧
    (nearQuery rows (current_data.date - 30) = none →
      r.current_shipment_mom = none ∧ r.forecast_shipment_mom = none ∧
      r.current_arrival_mom = none) ∧
    (∀ p, nearQuery rows (current_data.date - 365) = some p →
      r.current_shipment_yoy =
        some (calculate_yoy current_data.current_shipment p.current_shipment) ∧
      r.forecast_shipment_yoy =
        some (calculate_yoy current_data.forecast_shipment p.forecast_shipment) ∧
      r.current_arrival_yoy =
        some (calculate_yoy current_data.current_arrival p.current_arrival) ∧
      r.next_arrival_yoy =
        some (calculate_yoy current_data.next_arrival p.next_arrival)) ∧
    (∀ p, nearQuery rows (current_data.date - 30) = some p →
      r.current_shipment_mom =
        some (calculate_mom current_data.current_shipment p.current_shipment) ∧
      r.forecast_shipment_mom =
        some (calculate_mom current_data.forecast_shipment p.forecast_shipment) ∧
      r.current_arrival_mom =
        some (calculate_mom current_data.current_arrival p.current_arrival)) := by
  rw [get_ok_eq rows chartFails now current_data hl] at hr
  injection hr with hr
  subst hr
  refine ⟨fun hy => ?_, fun hm => ?_, fun p hy => ?_, fun p hm => ?_⟩
  · rw [hy]
    cases nearQuery rows (current_data.date - 30) <;> exact ⟨rfl, rfl, rfl, rfl⟩
  · rw [hm]
    cases nearQuery rows (current_data.date - 365) <;> exact ⟨rfl, rfl, rfl⟩
  · rw [hy]
    cases nearQuery rows (current_data.date - 30) <;> exact ⟨rfl, rfl, rfl, rfl⟩
  · rw [hm]
    cases nearQuery rows (current_data.date - 365) <;> exact ⟨rfl, rfl, rfl⟩

/-- Witness for C5: over `wStore`, both comparables exist (`wSnapC`
year-ago, `wSnapD` month-ago) and the delta fields are populated from the
calculators. -/
theorem delta_fields_population_witness :
    wReport.current_shipment_yoy =
      some (calculate_yoy wSnapB.current_shipment wSnapC.current_shipment) ∧
    wReport.forecast_shipment_yoy =
      some (calculate_yoy wSnapB.forecast_shipment wSnapC.forecast_shipment) ∧
    wReport.current_arrival_yoy =
      some (calculate_yoy wSnapB.current_arrival wSnapC.current_arrival) ∧
    wReport.next_arrival_yoy =
      some (calculate_yoy wSnapB.next_arrival wSnapC.next_arrival) :=
  (delta_fields_population false wStore 0 wSnapB wReport (by decide) rfl).2.2.1
    wSnapC (by decide)

end Soybean

namespace Soybean

/-- C6: the call succeeds exactly when the store connection is available
(`StoreUnavailable` is the only failure that propagates), and a failure
while building the comparison sequence is absorbed locally: the result with
a chart failure is exactly the result without one, with
`monthly_comparison` replaced by the empty list. -/
theorem failure_propagation (sessionOk : Bool) (rows : List SoybeanImportDB)
    (chartFails : Bool) (now : Int) :
    ((∃ r, get_soybean_import_data sessionOk rows chartFails now = Except.ok r) ↔
      sessionOk = true) ∧
    (get_soybean_import_data sessionOk rows true now =
      Except.map (fun r => { r with monthly_comparison := ([] : List ComparisonData) })
        (get_soybean_import_data sessionOk rows false now)) := by
  cases sessionOk with
  | false =>
    refine ⟨⟨fun ⟨r, hr⟩ => ?_, fun h => ?_⟩, rfl⟩
    · rw [get_error_eq] at hr; cases hr
    · cases h
  | true =>
    constructor
    · refine ⟨fun _ => rfl, fun _ => ?_⟩
      cases hl : latestQuery rows with
      | none => exact ⟨emptyReport now, get_none_eq rows chartFails now hl⟩
      | some current_data =>
        exact ⟨_, get_ok_eq rows chartFails now current_data hl⟩
    · cases hl : latestQuery rows with
      | none =>
        rw [get_none_eq rows true now hl, get_none_eq rows false now hl]
        rfl
      | some current_data =>
        rw [get_ok_eq rows true now current_data hl,
          get_ok_eq rows false now current_data hl]
        cases nearQuery rows (current_data.date - 365) <;>
          cases nearQuery rows (current_data.date - 30) <;> rfl

/-- Witness for C6: over the concrete store `wStore`, a successful call
exists, and a chart failure yields the same report with an empty
`monthly_comparison`. -/
theorem failure_propagation_witness :
    (∃ r, get_soybean_import_data true wStore false 0 = Except.ok r) ∧
    get_soybean_import_data true wStore true 0 =
      Except.map (fun r => { r with monthly_comparison := ([] : List ComparisonData) })
        (get_soybean_import_data true wStore false 0) :=
  ⟨(failure_propagation true wStore false 0).1.mpr rfl,
   (failure_propagation true wStore false 0).2⟩

end Soybean

namespace Soybean

theorem head_of_sorted_filter (p : SoybeanImportDB → Bool) (rows : List SoybeanImportDB)
    (hsorted : List.Pairwise dateLe rows) (s : SoybeanImportDB)
    (h : (rows.filter p).head? = some s) :
    s ∈ rows ∧ p s = true ∧ ∀ s' ∈ rows, p s' = true → dateLe s s' := by
  have hpair : List.Pairwise dateLe (rows.filter p) := hsorted.filter p
  rcases hfil : rows.filter p with _ | ⟨a, tail⟩
  · rw [hfil] at h; cases h
  · rw [hfil] at h
    have hsa : a = s := by injection h
    subst hsa
    have hmem : a ∈ rows.filter p := by
      rw [hfil]; exact List.mem_cons_self a tail
    refine ⟨List.mem_of_mem_filter hmem, List.of_mem_filter hmem, ?_⟩
    intro s' hs' hp'
    have hmem' : s' ∈ rows.filter p := List.mem_filter.mpr ⟨hs', hp'⟩
    rw [hfil] at hmem'
    rcases List.mem_cons.mp hmem' with h' | h'
    · rw [h']
      exact le_refl a.date
    · rw [hfil] at hpair
      exact List.rel_of_pairwise_cons hpair h'

theorem nearQuery_first_in_window (rows : List SoybeanImportDB) (t : Int)
    (hsorted : List.Pairwise dateLe rows) :
    (nearQuery rows t = none ↔ ∀ s ∈ rows, ¬(t ≤ s.date ∧ s.date < t + 7)) ∧
    (∀ s, nearQuery rows t = some s → s ∈ rows ∧ t ≤ s.date ∧ s.date < t + 7 ∧
      ∀ s' ∈ rows, t ≤ s'.date → s'.date < t + 7 → s.date ≤ s'.date) := by
  constructor
  · simp [nearQuery, List.head?_eq_none_iff, List.filter_eq_nil_iff]
  · intro s hsome
    obtain ⟨hmem, hp, hmin⟩ :=
      head_of_sorted_filter (fun r => t ≤ r.date && r.date < t + 7) rows hsorted s hsome
    simp only [Bool.and_eq_true, decide_eq_true_eq] at hp
    refine ⟨hmem, hp.1, hp.2, ?_⟩
    intro s' hs' h1 h2
    exact hmin s' hs' (by simp [h1, h2])

end Soybean

namespace Soybean

/-- C4: over a store whose rows are in ascending date order (the
append-only ingestion invariant), the year-ago comparable is looked up at
`referenceSnapshot.date - 365` and the month-ago comparable at
`referenceSnapshot.date - 30`, each with a 7-day window: the lookup is
absent exactly when no snapshot's date lies in `[target, target + 7)`, and
otherwise returns the snapshot of smallest date in that window. -/
theorem comparable_lookup_spec (rows : List SoybeanImportDB)
    (current_data : SoybeanImportDB) (hsorted : List.Pairwise dateLe rows) :
    (nearQuery rows (current_data.date - 365) = none ↔
      ∀ s ∈ rows, ¬(current_data.date - 365 ≤ s.date ∧
        s.date < current_data.date - 365 + 7)) ∧
    (∀ s, nearQuery rows (current_data.date - 365) = some s →
      s ∈ rows ∧ current_data.date - 365 ≤ s.date ∧
      s.date < current_data.date - 365 + 7 ∧
      ∀ s' ∈ rows, current_data.date - 365 ≤ s'.date →
        s'.date < current_data.date - 365 + 7 → s.date ≤ s'.date) ∧
    (nearQuery rows (current_data.date - 30) = none ↔
      ∀ s ∈ rows, ¬(current_data.date - 30 ≤ s.date ∧
        s.date < current_data.date - 30 + 7)) ∧
    (∀ s, nearQuery rows (current_data.date - 30) = some s →
      s ∈ rows ∧ current_data.date - 30 ≤ s.date ∧
      s.date < current_data.date - 30 + 7 ∧
      ∀ s' ∈ rows, current_data.date - 30 ≤ s'.date →
        s'.date < current_data.date - 30 + 7 → s.date ≤ s'.date) :=
  ⟨(nearQuery_first_in_window rows (current_data.date - 365) hsorted).1,
   (nearQuery_first_in_window rows (current_data.date - 365) hsorted).2,
   (nearQuery_first_in_window rows (current_data.date - 30) hsorted).1,
   (nearQuery_first_in_window rows (current_data.date - 30) hsorted).2⟩

/-- Witness for C4: over the sorted concrete store `wStore`, the year-ago
lookup of reference snapshot `wSnapB` returns `wSnapC`, which lies in the
window. -/
theorem comparable_lookup_spec_witness :
    wSnapC ∈ wStore ∧ wSnapB.date - 365 ≤ wSnapC.date ∧
      wSnapC.date < wSnapB.date - 365 + 7 :=
  let h := (comparable_lookup_spec wStore wSnapB (by decide)).2.1 wSnapC (by decide)
  ⟨h.1, h.2.1, h.2.2.1⟩

/-- C3: for every non-empty store, the report's `monthly_comparison` is
built from exactly the snapshots dated within
`[Jan 1 of (reference year - 1), Dec 31 of reference year]`, in ascending
date order, with four entries per snapshot in the fixed series order
actual-shipment, forecast-shipment, actual-arrival, forecast-arrival, each
keyed by that snapshot's date. -/
theorem monthly_comparison_spec (rows : List SoybeanImportDB) (now : Int)
    (current_data : SoybeanImportDB) (r : SoybeanImport) (lo hi : Int)
    (hl : latestQuery rows = some current_data)
    (hr : get_soybean_import_data true rows false now = Except.ok r)
    (hlo : lo = daysFromCivil (yearOf current_data.date - 1) 1 1)
    (hhi : hi = daysFromCivil (yearOf current_data.date) 12 31) :
    r.monthly_comparison =
      (rangeQuery rows lo hi).flatMap (fun s =>
        [ { month := fmtDate s.date, value := s.current_shipment, type := "实际装船量" },
          { month := fmtDate s.date, value := s.forecast_shipment, type := "预报装船量" },
          { month := fmtDate s.date, value := s.current_arrival, type := "实际到港量" },
          { month := fmtDate s.date, value := s.next_arrival, type := "预报到港量" } ]) ∧
    List.Sorted dateLe (rangeQuery rows lo hi) ∧
    (∀ s, s ∈ rangeQuery rows lo hi ↔ s ∈ rows ∧ lo ≤ s.date ∧ s.date ≤ hi) ∧
    r.monthly_comparison.length = 4 * (rangeQuery rows lo hi).length := by
  subst hlo
  subst hhi
  rw [get_ok_eq rows false now current_data hl] at hr
  injection hr with hr
  subst hr
  refine ⟨?_, ?_, ?_, ?_⟩
  · cases nearQuery rows (current_data.date - 365) <;>
      cases nearQuery rows (current_data.date - 30) <;> rfl
  · exact List.sorted_insertionSort dateLe _
  · intro s
    rw [rangeQuery, (List.perm_insertionSort dateLe _).mem_iff, List.mem_filter]
    simp [and_assoc]
  · cases nearQuery rows (current_data.date - 365) <;>
      cases nearQuery rows (current_data.date - 30) <;>
      exact length_flatMap_comparisonPoints _

/-- Witness for C3: over `wStore` (reference snapshot `wSnapB`, so the
range is 2023-01-01 to 2024-12-31), the chart is sorted ascending and has
four entries per ranged snapshot. -/
theorem monthly_comparison_spec_witness :
    List.Sorted dateLe (rangeQuery wStore (daysFromCivil (yearOf wSnapB.date - 1) 1 1)
      (daysFromCivil (yearOf wSnapB.date) 12 31)) ∧
    wReport.monthly_comparison.length =
      4 * (rangeQuery wStore (daysFromCivil (yearOf wSnapB.date - 1) 1 1)
        (daysFromCivil (yearOf wSnapB.date) 12 31)).length :=
  ⟨(monthly_comparison_spec wStore 0 wSnapB wReport _ _ (by decide) rfl rfl rfl).2.1,
   (monthly_comparison_spec wStore 0 wSnapB wReport _ _ (by decide) rfl rfl rfl).2.2.2⟩

end Soybean

namespace Soybean

/-- C8 counterexample: the degenerate (empty-store) report and the normal
report do NOT carry the same policy-event list — the empty-store path
attaches the six-event `_get_policy_events()` list while the normal path
attaches the inline four-event list. -/
theorem policy_events_differ_across_paths :
    (get_soybean_import_data true [] false 0).toOption.map SoybeanImport.policy_events ≠
    (get_soybean_import_data true wStore false 0).toOption.map SoybeanImport.policy_events := by
  decide

/-- C8 (amended): every report carries a fixed, input-independent,
non-empty policy-event list attached unconditionally and not derived from
snapshot data, but the two paths attach different fixed lists: the
degenerate report carries the six-event `_get_policy_events()` list, the
normal report the inline four-event list. -/
theorem policy_events_fixed_per_path (sessionOk chartFails : Bool)
    (rows : List SoybeanImportDB) (now : Int) (r : SoybeanImport)
    (hr : get_soybean_import_data sessionOk rows chartFails now = Except.ok r) :
    (latestQuery rows = none → r.policy_events = get_policy_events) ∧
    (∀ current_data, latestQuery rows = some current_data →
      r.policy_events = inline_policy_events) ∧
    r.policy_events ≠ [] := by
  cases sessionOk with
  | false => rw [get_error_eq] at hr; cases hr
  | true =>
    cases hl : latestQuery rows with
    | none =>
      rw [get_none_eq rows chartFails now hl] at hr
      injection hr with hr
      subst hr
      exact ⟨fun _ => rfl, fun cd hcd => Option.noConfusion hcd, List.cons_ne_nil _ _⟩
    | some current_data =>
      rw [get_ok_eq rows chartFails now current_data hl] at hr
      injection hr with hr
      subst hr
      cases nearQuery rows (current_data.date - 365) <;>
        cases nearQuery rows (current_data.date - 30) <;>
        exact ⟨fun h => Option.noConfusion h, fun cd hcd => rfl, List.cons_ne_nil _ _⟩

/-- Witness for C8 (amended): the report over `wStore` carries the inline
four-event list, which is non-empty. -/
theorem policy_events_fixed_per_path_witness :
    wReport.policy_events = inline_policy_events ∧ wReport.policy_events ≠ [] :=
  let h := policy_events_fixed_per_path true false wStore 0 wReport rfl
  ⟨h.2.1 wSnapB (by decide), h.2.2⟩

/-- C9 counterexample: on an empty store the report's `date` field is the
invocation day, so two invocations of the same fixed store on different
days (0 = 1970-01-01 and 1 = 1970-01-02) yield reports that differ in a
field other than `created_at` / `updated_at`. -/
theorem idempotence_cex :
    get_soybean_import_data true [] false 0 = Except.ok (emptyReport 0) ∧
    get_soybean_import_data true [] false 1 = Except.ok (emptyReport 1) ∧
    ¬ contentEqExceptTimestamps (emptyReport 0) (emptyReport 1) :=
  ⟨rfl, rfl, by decide⟩

/-- C9 (amended): for every fixed NON-EMPTY store, two invocations with no
intervening writes yield reports with identical content in every field
except `created_at` / `updated_at`; on an empty store the `date` field
additionally tracks the invocation day, so only same-day invocations
coincide there. -/
theorem buildReport_idempotent_content (chartFails : Bool)
    (rows : List SoybeanImportDB) (now1 now2 : Int)
    (current_data : SoybeanImportDB) (r1 r2 : SoybeanImport)
    (hl : latestQuery rows = some current_data)
    (h1 : get_soybean_import_data true rows chartFails now1 = Except.ok r1)
    (h2 : get_soybean_import_data true rows chartFails now2 = Except.ok r2) :
    contentEqExceptTimestamps r1 r2 := by
  rw [get_ok_eq rows chartFails now1 current_data hl] at h1
  rw [get_ok_eq rows chartFails now2 current_data hl] at h2
  injection h1 with h1
  injection h2 with h2
  subst h1
  subst h2
  cases nearQuery rows (current_data.date - 365) <;>
    cases nearQuery rows (current_data.date - 30) <;>
    exact ⟨rfl, rfl, rfl, rfl, rfl, rfl, rfl, rfl, rfl, rfl, rfl, rfl, rfl, rfl, rfl, rfl,
      rfl, rfl, rfl, rfl, rfl, rfl⟩

/-- Witness for C9 (amended): the reports assembled over `wStore` on day 0
and on day 5 agree on all content fields. -/
theorem buildReport_idempotent_content_witness :
    contentEqExceptTimestamps wReport
      ((get_soybean_import_data true wStore false 5).toOption.getD (emptyReport 0)) :=
  buildReport_idempotent_content false wStore 0 5 wSnapB wReport
    ((get_soybean_import_data true wStore false 5).toOption.getD (emptyReport 0))
    (by decide) rfl rfl

end Soybean
